import Mathlib

/-!
Shallow embedding of `src/server.js` (damibook): a minimal social-network
web application over a document store, with session-based authentication.

The document store is modelled as four lists (users, posts, comments,
messages); MongoDB object ids are `Nat`; `Date.now` timestamps are `Nat`
values passed to each handler; bcrypt hashing/comparison are abstract
function parameters; request handlers are pure functions from the store,
the session (an `Option Nat` holding the bound user id, as in
`req.session.userId`) and the request data to the updated store, updated
session and HTTP response.  A JavaScript null dereference (e.g. `me._id`
when `User.findById` returned null) is modelled by returning `none`.
Missing request body fields are `none`; JavaScript string falsiness
(`!s`) holds exactly for a missing field or the empty string.
-/

/-- `User` document: `userSchema` in server.js (username, passwordHash,
createdAt) plus the Mongo-assigned `_id`. -/
structure User where
  id : Nat
  username : String
  passwordHash : String
  createdAt : Nat
deriving DecidableEq, Repr

/-- `Post` document: `postSchema` in server.js (author ref, content,
createdAt) plus the Mongo-assigned `_id`. -/
structure Post where
  id : Nat
  author : Nat
  content : String
  createdAt : Nat
deriving DecidableEq, Repr

/-- `Comment` document: `commentSchema` in server.js (post ref, author ref,
content, createdAt). -/
structure Comment where
  post : Nat
  author : Nat
  content : String
  createdAt : Nat
deriving DecidableEq, Repr

/-- `Message` document: `messageSchema` in server.js (from ref, to ref,
content, createdAt). -/
structure Message where
  sender : Nat
  recipient : Nat
  content : String
  createdAt : Nat
deriving DecidableEq, Repr

/-- The document store: one collection per model, in insertion order. -/
structure Store where
  users : List User
  posts : List Post
  comments : List Comment
  messages : List Message
deriving DecidableEq, Repr

/-- The observable outcome of a request handler: a redirect or a rendered
view (with the data passed to `res.render`). -/
inductive Response where
  | redirect (path : String)
  | renderLogin (error : Option String)
  | renderRegister (error : Option String)
  | renderHome (user : User) (others : List User) (posts : List Post)
      (comments : List Comment)
  | renderChat (me other : User) (messages : List Message)
deriving DecidableEq, Repr

/-- `User.findOne({ username })`: first user whose username matches. -/
def findOneUser (s : Store) (username : String) : Option User :=
  s.users.find? (fun u => u.username == username)

/-- `User.findById(i)`. -/
def findUserById (s : Store) (i : Nat) : Option User :=
  s.users.find? (fun u => u.id == i)

/-- `Post.findById(i)`. -/
def findPostById (s : Store) (i : Nat) : Option Post :=
  s.posts.find? (fun p => p.id == i)

/-- JavaScript falsiness of an optional request-body string: `!x` is true
exactly when the field is missing or the empty string. -/
def falsy : Option String → Bool
  | none => true
  | some s => s == ""

/-- JavaScript whitespace as used by `String.prototype.trim`: space, tab,
line feed, vertical tab, form feed, carriage return (further exotic Unicode
space separators also count in JS; the content claims only need that the
usual whitespace characters are stripped). -/
def jsWhitespace (c : Char) : Bool :=
  c == ' ' || c == '\t' || c == '\n' || c == '\x0b' || c == '\x0c' || c == '\r'

/-- JavaScript `s.trim()`: remove leading and trailing whitespace. -/
def trimString (s : String) : String :=
  ⟨((s.data.dropWhile jsWhitespace).reverse.dropWhile jsWhitespace).reverse⟩

/-- The guard `!content || !content.trim()` used by all three content
handlers: missing, empty, or whitespace-only content. -/
def contentBlank : Option String → Bool
  | none => true
  | some s => trimString s == ""

/-- `.sort({ createdAt: -1 })` on posts: newest first. -/
def sortPostsDesc (l : List Post) : List Post :=
  List.insertionSort (fun a b => b.createdAt ≤ a.createdAt) l

/-- `.sort({ createdAt: 1 })` on comments: oldest first. -/
def sortCommentsAsc (l : List Comment) : List Comment :=
  List.insertionSort (fun a b => a.createdAt ≤ b.createdAt) l

/-- `.sort({ createdAt: 1 })` on messages: oldest first. -/
def sortMessagesAsc (l : List Message) : List Message :=
  List.insertionSort (fun a b => a.createdAt ≤ b.createdAt) l

/-- The `requireLogin` middleware: an anonymous session is redirected to
`/login`; otherwise the protected handler runs with the bound user id. -/
def withRequireLogin (sess : Option Nat) (s : Store)
    (handler : Nat → Store → Option (Store × Response)) :
    Option (Store × Response) :=
  match sess with
  | none => some (s, Response.redirect "/login")
  | some uid => handler uid s

/-- `app.post('/login')`: look the user up by username; not found renders
the login form with an error; a failed bcrypt comparison renders the form
with an error; success binds the session to the user id and redirects.
`cmp` is `bcrypt.compare` (submitted password first, stored hash second). -/
def login (cmp : String → String → Bool) (s : Store) (sess : Option Nat)
    (username password : String) : Option Nat × Response :=
  match findOneUser s username with
  | none => (sess, Response.renderLogin (some "Utilisateur introuvable"))
  | some user =>
    if cmp password user.passwordHash then
      (some user.id, Response.redirect "/")
    else
      (sess, Response.renderLogin (some "Mot de passe incorrect"))

/-- `app.post('/register')`: a missing/empty username or password re-renders
the form; an existing username re-renders the form with a conflict message;
otherwise the user is persisted with the bcrypt hash of the password, the
session is bound to the fresh id and the response redirects to the feed.
`hash` is `bcrypt.hash`; `now` is `Date.now`; `newId` the fresh object id. -/
def register (hash : String → String) (s : Store) (sess : Option Nat)
    (username password : Option String) (now newId : Nat) :
    Store × Option Nat × Response :=
  if falsy username || falsy password then
    (s, sess, Response.renderRegister (some "Pseudo et mot de passe obligatoires"))
  else
    match findOneUser s (username.getD "") with
    | some _ => (s, sess, Response.renderRegister (some "Ce pseudo est déjà pris"))
    | none =>
      let user : User :=
        { id := newId, username := username.getD "",
          passwordHash := hash (password.getD ""), createdAt := now }
      ({ s with users := s.users ++ [user] }, some newId, Response.redirect "/")

/-- `app.get('/')` (behind `requireLogin`): the viewer, all other users,
all posts sorted newest first, all comments sorted oldest first.  A null
viewer would crash at `user._id`, modelled as `none`. -/
def listFeed (s : Store) (sessUserId : Nat) : Option (Store × Response) :=
  match findUserById s sessUserId with
  | none => none
  | some user =>
    let others := s.users.filter (fun u => u.id != user.id)
    some (s, Response.renderHome user others (sortPostsDesc s.posts)
      (sortCommentsAsc s.comments))

/-- `app.get('/chat/:userId')` (behind `requireLogin`): redirect home if the
peer does not resolve; otherwise list the messages exchanged between the
viewer and the peer, oldest first.  A null viewer would crash at `me._id`
in the query, modelled as `none`. -/
def openConversation (s : Store) (sessUserId peerId : Nat) :
    Option (Store × Response) :=
  let others := findUserById s peerId
  match others with
  | none => some (s, Response.redirect "/")
  | some other =>
    match findUserById s sessUserId with
    | none => none
    | some me =>
      let msgs := s.messages.filter (fun m =>
        (m.sender == me.id && m.recipient == other.id) ||
        (m.sender == other.id && m.recipient == me.id))
      some (s, Response.renderChat me other (sortMessagesAsc msgs))

/-- `app.post('/chat/:userId')` (behind `requireLogin`): redirect home if
the peer does not resolve; redirect back if the content is blank; otherwise
persist one message with the trimmed content and a server timestamp.  A
null viewer would crash at `me._id` in `Message.create`, modelled `none`. -/
def sendMessage (s : Store) (sessUserId peerId : Nat)
    (content : Option String) (now : Nat) : Option (Store × Response) :=
  match findUserById s peerId with
  | none => some (s, Response.redirect "/")
  | some other =>
    if contentBlank content then
      some (s, Response.redirect ("/chat/" ++ toString other.id))
    else
      match findUserById s sessUserId with
      | none => none
      | some me =>
        some ({ s with messages := s.messages ++
          [{ sender := me.id, recipient := other.id,
             content := trimString (content.getD ""), createdAt := now }] },
          Response.redirect ("/chat/" ++ toString other.id))

/-- `app.post('/posts')` (behind `requireLogin`): redirect if the content is
blank; otherwise persist one post with the trimmed content and a server
timestamp.  A null viewer would crash at `user._id`, modelled as `none`. -/
def createPost (s : Store) (sessUserId : Nat) (content : Option String)
    (now newId : Nat) : Option (Store × Response) :=
  if contentBlank content then
    some (s, Response.redirect "/")
  else
    match findUserById s sessUserId with
    | none => none
    | some user =>
      some ({ s with posts := s.posts ++
        [{ id := newId, author := user.id,
           content := trimString (content.getD ""), createdAt := now }] },
        Response.redirect "/")

/-- `app.post('/posts/:postId/comments')` (behind `requireLogin`): redirect
if the content is blank; redirect home if the post does not resolve;
otherwise persist one comment with the trimmed content and a server
timestamp.  A null viewer would crash at `user._id`, modelled as `none`. -/
def createComment (s : Store) (sessUserId postId : Nat)
    (content : Option String) (now : Nat) : Option (Store × Response) :=
  if contentBlank content then
    some (s, Response.redirect "/")
  else
    match findPostById s postId with
    | none => some (s, Response.redirect "/")
    | some post =>
      match findUserById s sessUserId with
      | none => none
      | some user =>
        some ({ s with comments := s.comments ++
          [{ post := post.id, author := user.id,
             content := trimString (content.getD ""), createdAt := now }] },
          Response.redirect "/")

/-- `GET /` as routed, behind the middleware. -/
def getFeedRoute (sess : Option Nat) (s : Store) : Option (Store × Response) :=
  withRequireLogin sess s (fun uid st => listFeed st uid)

/-- `GET /chat/:userId` as routed, behind the middleware. -/
def getChatRoute (sess : Option Nat) (peerId : Nat) (s : Store) :
    Option (Store × Response) :=
  withRequireLogin sess s (fun uid st => openConversation st uid peerId)

/-- `POST /chat/:userId` as routed, behind the middleware. -/
def postChatRoute (sess : Option Nat) (peerId : Nat) (content : Option String)
    (now : Nat) (s : Store) : Option (Store × Response) :=
  withRequireLogin sess s (fun uid st => sendMessage st uid peerId content now)

/-- `POST /posts` as routed, behind the middleware. -/
def postPostsRoute (sess : Option Nat) (content : Option String)
    (now newId : Nat) (s : Store) : Option (Store × Response) :=
  withRequireLogin sess s (fun uid st => createPost st uid content now newId)

/-- `POST /posts/:postId/comments` as routed, behind the middleware. -/
def postCommentsRoute (sess : Option Nat) (postId : Nat)
    (content : Option String) (now : Nat) (s : Store) :
    Option (Store × Response) :=
  withRequireLogin sess s (fun uid st => createComment st uid postId content now)

/-- A concrete store used to exercise the handlers: two users, one post,
two messages between the users. -/
def demoStore : Store :=
  { users := [⟨1, "alice", "pwhash", 0⟩, ⟨2, "bob", "xyhash", 1⟩],
    posts := [⟨3, 1, "hello", 2⟩],
    comments := [],
    messages := [⟨1, 2, "hi", 3⟩, ⟨2, 1, "yo", 4⟩] }

/-- A concrete stand-in for `bcrypt.compare`, matching the hashes used in
`demoStore`: a password matches the hash obtained by appending "hash". -/
def demoCmp (password storedHash : String) : Bool :=
  (password ++ "hash") == storedHash

/-- A concrete store whose two posts share one creation timestamp. -/
def tieStore : Store :=
  { users := [⟨1, "alice", "pwhash", 0⟩],
    posts := [⟨1, 1, "a", 5⟩, ⟨2, 1, "b", 5⟩],
    comments := [],
    messages := [] }

/-- Claim C8: any request to a protected route (feed, chat, message send,
post creation, comment creation) made while the session is anonymous is
answered by a redirect to the login page, the store is untouched, and the
protected handler never executes (the outcome is the same for every
handler). -/
theorem C8_anonymous_redirects (s : Store) (peerId postId : Nat)
    (content : Option String) (now newId : Nat)
    (handler : Nat → Store → Option (Store × Response)) :
    withRequireLogin none s handler = some (s, Response.redirect "/login") ∧
    getFeedRoute none s = some (s, Response.redirect "/login") ∧
    getChatRoute none peerId s = some (s, Response.redirect "/login") ∧
    postChatRoute none peerId content now s = some (s, Response.redirect "/login") ∧
    postPostsRoute none content now newId s = some (s, Response.redirect "/login") ∧
    postCommentsRoute none postId content now s = some (s, Response.redirect "/login") :=
  ⟨rfl, rfl, rfl, rfl, rfl, rfl⟩

/-- Claim C5: a registration attempt with a missing or empty username or
password persists no user, leaves the session unmodified, and re-renders
the registration form with an error message. -/
theorem C5_register_rejects_missing (hash : String → String) (s : Store)
    (sess : Option Nat) (username password : Option String) (now newId : Nat)
    (h : (falsy username || falsy password) = true) :
    register hash s sess username password now newId =
      (s, sess, Response.renderRegister (some "Pseudo et mot de passe obligatoires")) := by
  unfold register
  rw [if_pos h]

/-- Witness for C5 at a concrete attempt with an empty username. -/
theorem C5_witness :
    ((falsy (some "") || falsy (some "pw")) = true) ∧
    register (fun p => p ++ "hash") demoStore none (some "") (some "pw") 9 9 =
      (demoStore, none, Response.renderRegister (some "Pseudo et mot de passe obligatoires")) :=
  ⟨by decide, C5_register_rejects_missing _ _ _ _ _ _ _ (by decide)⟩

/-- Claim C7: a comment request whose postId resolves to no existing post
redirects to the home page and leaves the store unchanged, whatever the
submitted content. -/
theorem C7_comment_unresolved_post (s : Store) (uid postId : Nat)
    (content : Option String) (now : Nat)
    (h : findPostById s postId = none) :
    createComment s uid postId content now = some (s, Response.redirect "/") := by
  unfold createComment
  cases hc : contentBlank content <;> simp [hc, h]

/-- Witness for C7 at a concrete store with no post numbered 99. -/
theorem C7_witness :
    findPostById demoStore 99 = none ∧
    createComment demoStore 1 99 (some "hi") 5 = some (demoStore, Response.redirect "/") :=
  ⟨by decide, C7_comment_unresolved_post demoStore 1 99 (some "hi") 5 (by decide)⟩

/-- Claim C10: registration does not trim the submitted fields: a
whitespace-only username and password pass the presence check, so a user
whose username is a single space is persisted and the session is bound to
it. -/
theorem C10_whitespace_username_registers :
    register (fun p => p ++ "hash")
      { users := [], posts := [], comments := [], messages := [] } none
      (some " ") (some " ") 7 1 =
      ({ users := [{ id := 1, username := " ", passwordHash := " hash", createdAt := 7 }],
         posts := [], comments := [], messages := [] }, some 1, Response.redirect "/") := by
  decide

/-- Claim C9: whenever a post, comment or message is persisted, the stored
content is the submitted content with leading and trailing whitespace
removed, never the raw input. -/
theorem C9_trimmed_content_stored (s : Store) (uid peerId postId : Nat)
    (c : String) (now newId : Nat) (me other : User) (post : Post)
    (hme : findUserById s uid = some me)
    (hother : findUserById s peerId = some other)
    (hpost : findPostById s postId = some post)
    (hc : ¬ trimString c = "") :
    createPost s uid (some c) now newId =
      some ({ s with posts := s.posts ++
        [{ id := newId, author := me.id, content := trimString c, createdAt := now }] },
        Response.redirect "/") ∧
    createComment s uid postId (some c) now =
      some ({ s with comments := s.comments ++
        [{ post := post.id, author := me.id, content := trimString c, createdAt := now }] },
        Response.redirect "/") ∧
    sendMessage s uid peerId (some c) now =
      some ({ s with messages := s.messages ++
        [{ sender := me.id, recipient := other.id, content := trimString c, createdAt := now }] },
        Response.redirect ("/chat/" ++ toString other.id)) := by
  have hb : contentBlank (some c) = false := by
    simp [contentBlank, hc]
  refine ⟨?_, ?_, ?_⟩
  · simp [createPost, hb, hme]
  · simp [createComment, hb, hme, hpost]
  · simp [sendMessage, hb, hme, hother]

/-- Witness for C9 at a concrete store and the content " hi ". -/
theorem C9_witness :
    findUserById demoStore 1 = some ⟨1, "alice", "pwhash", 0⟩ ∧
    findUserById demoStore 2 = some ⟨2, "bob", "xyhash", 1⟩ ∧
    findPostById demoStore 3 = some ⟨3, 1, "hello", 2⟩ ∧
    ¬ (trimString " hi " = "") ∧
    (createPost demoStore 1 (some " hi ") 9 7 =
      some ({ demoStore with posts := demoStore.posts ++
        [{ id := 7, author := 1, content := "hi", createdAt := 9 }] },
        Response.redirect "/") ∧
    createComment demoStore 1 3 (some " hi ") 9 =
      some ({ demoStore with comments := demoStore.comments ++
        [{ post := 3, author := 1, content := "hi", createdAt := 9 }] },
        Response.redirect "/") ∧
    sendMessage demoStore 1 2 (some " hi ") 9 =
      some ({ demoStore with messages := demoStore.messages ++
        [{ sender := 1, recipient := 2, content := "hi", createdAt := 9 }] },
        Response.redirect ("/chat/" ++ toString 2))) := by
  refine ⟨by decide, by decide, by decide, by decide, ?_⟩
  exact C9_trimmed_content_stored demoStore 1 2 3 " hi " 9 7
    ⟨1, "alice", "pwhash", 0⟩ ⟨2, "bob", "xyhash", 1⟩ ⟨3, 1, "hello", 2⟩
    (by decide) (by decide) (by decide) (by decide)

/-- Claim C2: a createPost, createComment or sendMessage request with
missing, empty or whitespace-only content creates no document and redirects;
with content that is non-empty after trimming, and the referenced entities
resolved, exactly one new document is appended, carrying the server-assigned
creation timestamp. -/
theorem C2_content_creation (s : Store) (uid peerId postId : Nat)
    (content : Option String) (now newId : Nat) :
    (contentBlank content = true →
      createPost s uid content now newId = some (s, Response.redirect "/") ∧
      createComment s uid postId content now = some (s, Response.redirect "/") ∧
      (findUserById s peerId = none →
        sendMessage s uid peerId content now = some (s, Response.redirect "/")) ∧
      (∀ other, findUserById s peerId = some other →
        sendMessage s uid peerId content now =
          some (s, Response.redirect ("/chat/" ++ toString other.id)))) ∧
    (contentBlank content = false →
      ∀ me, findUserById s uid = some me →
        (∃ p : Post, p.createdAt = now ∧
          createPost s uid content now newId =
            some ({ s with posts := s.posts ++ [p] }, Response.redirect "/")) ∧
        (∀ post, findPostById s postId = some post →
          ∃ c : Comment, c.createdAt = now ∧
            createComment s uid postId content now =
              some ({ s with comments := s.comments ++ [c] }, Response.redirect "/")) ∧
        (∀ other, findUserById s peerId = some other →
          ∃ m : Message, m.createdAt = now ∧
            sendMessage s uid peerId content now =
              some ({ s with messages := s.messages ++ [m] },
                Response.redirect ("/chat/" ++ toString other.id)))) := by
  constructor
  · intro hb
    refine ⟨?_, ?_, ?_, ?_⟩
    · simp [createPost, hb]
    · simp [createComment, hb]
    · intro hp; simp [sendMessage, hp]
    · intro other hp; simp [sendMessage, hp, hb]
  · intro hb me hme
    refine ⟨?_, ?_, ?_⟩
    · exact ⟨⟨newId, me.id, trimString (content.getD ""), now⟩, rfl,
        by simp [createPost, hb, hme]⟩
    · intro post hpost
      exact ⟨⟨post.id, me.id, trimString (content.getD ""), now⟩, rfl,
        by simp [createComment, hb, hme, hpost]⟩
    · intro other hp
      exact ⟨⟨me.id, other.id, trimString (content.getD ""), now⟩, rfl,
        by simp [sendMessage, hb, hme, hp]⟩

/-- Witness for C2: a blank submission creates nothing, and a non-blank
submission appends exactly one timestamped post, at concrete inputs. -/
theorem C2_witness :
    (contentBlank none = true ∧
      createPost demoStore 1 none 5 9 = some (demoStore, Response.redirect "/")) ∧
    (contentBlank (some " hi ") = false ∧
      findUserById demoStore 1 = some ⟨1, "alice", "pwhash", 0⟩ ∧
      ∃ p : Post, p.createdAt = 5 ∧
        createPost demoStore 1 (some " hi ") 5 9 =
          some ({ demoStore with posts := demoStore.posts ++ [p] },
            Response.redirect "/")) := by
  refine ⟨⟨by decide, ?_⟩, ⟨by decide, by decide, ?_⟩⟩
  · exact ((C2_content_creation demoStore 1 2 3 none 5 9).1 (by decide)).1
  · exact (((C2_content_creation demoStore 1 2 3 (some " hi ") 5 9).2 (by decide))
      ⟨1, "alice", "pwhash", 0⟩ (by decide)).1

/-- When the stored usernames are pairwise distinct (the `unique: true`
invariant of `userSchema`), `User.findOne({ username })` returns exactly
the member carrying that username. -/
theorem findOneUser_eq_of_nodup (l : List User) (n : String)
    (hn : (l.map User.username).Nodup) (u : User) (hu : u ∈ l)
    (hname : u.username = n) :
    l.find? (fun x => x.username == n) = some u := by
  induction l with
  | nil => cases hu
  | cons a t ih =>
    have hmapped : a.username ∉ t.map User.username ∧ (t.map User.username).Nodup := by
      simpa [List.nodup_cons] using hn
    rcases List.mem_cons.mp hu with h | h
    · subst h
      have hpa : (u.username == n) = true := by simp [hname]
      simp [List.find?_cons, hpa]
    · have hne : (a.username == n) = false := by
        refine beq_eq_false_iff_ne.mpr ?_
        intro he
        apply hmapped.1
        rw [he, ← hname]
        exact List.mem_map_of_mem User.username h
      rw [List.find?_cons, hne]
      exact ih hmapped.2 h

/-- Claim C1 (amended): assuming the store's usernames are unique, a login
attempt succeeds — binds the session to the matching user's id and
redirects — exactly when a user with the submitted username exists and the
bcrypt comparison of the submitted password against that user's stored
hash succeeds; if no user matches, the attempt is rejected with the
not-found message, if the comparison fails it is rejected with the
bad-password message, and every rejection leaves the session unchanged, so
the attempt itself never establishes a binding (no partial success). -/
theorem C1_login_contract (cmp : String → String → Bool) (s : Store)
    (sess sess' : Option Nat) (username password : String) (resp : Response)
    (hnodup : (s.users.map User.username).Nodup)
    (h : login cmp s sess username password = (sess', resp)) :
    ((∃ u, u ∈ s.users ∧ u.username = username ∧ cmp password u.passwordHash = true) →
      resp = Response.redirect "/" ∧
      ∃ u, u ∈ s.users ∧ u.username = username ∧
        cmp password u.passwordHash = true ∧ sess' = some u.id) ∧
    ((∀ u ∈ s.users, ¬ u.username = username) →
      sess' = sess ∧ resp = Response.renderLogin (some "Utilisateur introuvable")) ∧
    ((∃ u, u ∈ s.users ∧ u.username = username) →
      (∀ u ∈ s.users, u.username = username → cmp password u.passwordHash = false) →
      sess' = sess ∧ resp = Response.renderLogin (some "Mot de passe incorrect")) ∧
    (resp = Response.redirect "/" ↔
      ∃ u, u ∈ s.users ∧ u.username = username ∧ cmp password u.passwordHash = true) := by
  cases hfind : findOneUser s username with
  | none =>
    have hnone : ∀ u ∈ s.users, ¬ (u.username == username) = true :=
      List.find?_eq_none.mp hfind
    have hno : ∀ u ∈ s.users, ¬ u.username = username := by
      intro u hu he
      exact hnone u hu (by simp [he])
    have hnoex : ¬ ∃ u, u ∈ s.users ∧ u.username = username ∧
        cmp password u.passwordHash = true := by
      rintro ⟨u, hu, he, -⟩
      exact hno u hu he
    simp only [login, hfind] at h
    obtain ⟨rfl, rfl⟩ := Prod.mk.injEq .. |>.mp h.symm
    refine ⟨fun hx => absurd hx hnoex, fun _ => ⟨rfl, rfl⟩, fun hx _ => ?_, ?_⟩
    · obtain ⟨u, hu, he⟩ := hx
      exact absurd he (hno u hu)
    constructor
    · intro hx; cases hx
    · intro hx; exact absurd hx hnoex
  | some u0 =>
    have hfind' : s.users.find? (fun u => u.username == username) = some u0 := hfind
    have hu0name : u0.username = username := by
      have hp := List.find?_some hfind'
      simpa using hp
    have hu0mem : u0 ∈ s.users := List.mem_of_find?_eq_some hfind'
    cases hcmp : cmp password u0.passwordHash with
    | true =>
      simp only [login, hfind, hcmp, if_true] at h
      obtain ⟨rfl, rfl⟩ := Prod.mk.injEq .. |>.mp h.symm
      refine ⟨fun _ => ⟨rfl, u0, hu0mem, hu0name, hcmp, rfl⟩, ?_, ?_, ?_⟩
      · intro hno
        exact absurd hu0name (hno u0 hu0mem)
      · intro _ hall
        exact absurd hcmp (by simp [hall u0 hu0mem hu0name])
      · exact ⟨fun _ => ⟨u0, hu0mem, hu0name, hcmp⟩, fun _ => rfl⟩
    | false =>
      simp only [login, hfind, hcmp, if_false] at h
      obtain ⟨rfl, rfl⟩ := Prod.mk.injEq .. |>.mp h.symm
      have hnoex : ¬ ∃ u, u ∈ s.users ∧ u.username = username ∧
          cmp password u.passwordHash = true := by
        rintro ⟨u, hu, he, hc⟩
        have : s.users.find? (fun x => x.username == username) = some u :=
          findOneUser_eq_of_nodup s.users username hnodup u hu he
        rw [hfind'] at this
        cases this
        rw [hc] at hcmp
        cases hcmp
      refine ⟨fun hx => absurd hx hnoex, ?_, fun _ _ => ⟨rfl, rfl⟩, ?_⟩
      · intro hno
        exact absurd hu0name (hno u0 hu0mem)
      · constructor
        · intro hx; cases hx
        · intro hx; exact absurd hx hnoex

/-- Counterexample to claim C1 as stated: a rejected login attempt made
while the session is already bound (here to user 2) leaves the session
bound, not unbound — rejections leave the session unchanged rather than
unbinding it. -/
theorem C1_counterexample :
    login demoCmp demoStore (some 2) "zed" "pw" =
      (some 2, Response.renderLogin (some "Utilisateur introuvable")) ∧
    (some 2 : Option Nat) ≠ none := by
  decide

/-- Witness for C1 at a concrete successful attempt. -/
theorem C1_witness :
    (demoStore.users.map User.username).Nodup ∧
    login demoCmp demoStore none "alice" "pw" = (some 1, Response.redirect "/") ∧
    (Response.redirect "/" = Response.redirect "/" ∧
      ∃ u, u ∈ demoStore.users ∧ u.username = "alice" ∧
        demoCmp "pw" u.passwordHash = true ∧ (some 1 : Option Nat) = some u.id) := by
  refine ⟨by decide, by decide, ?_⟩
  exact (C1_login_contract demoCmp demoStore none (some 1) "alice" "pw"
      (Response.redirect "/") (by decide) (by decide)).1
    ⟨⟨1, "alice", "pwhash", 0⟩, by decide, by decide, by decide⟩

/-- The conversation filter treats the two endpoints symmetrically. -/
theorem conversationFilter_comm (l : List Message) (x y : Nat) :
    l.filter (fun m => (m.sender == x && m.recipient == y) ||
      (m.sender == y && m.recipient == x)) =
    l.filter (fun m => (m.sender == y && m.recipient == x) ||
      (m.sender == x && m.recipient == y)) := by
  apply List.filter_congr
  intro m _
  exact Bool.or_comm _ _

/-- Claim C4: for resolvable users A and B, opening the conversation from
A's side and from B's side yields literally the same message list: exactly
the stored messages whose (sender, recipient) pair is (A, B) or (B, A). -/
theorem C4_conversation_symmetry (s : Store) (a b : Nat) (ua ub : User)
    (ha : findUserById s a = some ua) (hb : findUserById s b = some ub) :
    ∃ msgs, openConversation s a b = some (s, Response.renderChat ua ub msgs) ∧
      openConversation s b a = some (s, Response.renderChat ub ua msgs) ∧
      ∀ m : Message, m ∈ msgs ↔ m ∈ s.messages ∧
        ((m.sender = ua.id ∧ m.recipient = ub.id) ∨
         (m.sender = ub.id ∧ m.recipient = ua.id)) := by
  refine ⟨sortMessagesAsc (s.messages.filter (fun m =>
    (m.sender == ua.id && m.recipient == ub.id) ||
    (m.sender == ub.id && m.recipient == ua.id))), ?_, ?_, ?_⟩
  · simp [openConversation, ha, hb]
  · have h2 := conversationFilter_comm s.messages ub.id ua.id
    simp [openConversation, ha, hb, h2]
  · intro m
    rw [sortMessagesAsc, (List.perm_insertionSort _ _).mem_iff, List.mem_filter]
    simp

/-- Witness for C4 at a concrete store with a two-message conversation. -/
theorem C4_witness :
    findUserById demoStore 1 = some ⟨1, "alice", "pwhash", 0⟩ ∧
    findUserById demoStore 2 = some ⟨2, "bob", "xyhash", 1⟩ ∧
    ∃ msgs, openConversation demoStore 1 2 =
        some (demoStore, Response.renderChat ⟨1, "alice", "pwhash", 0⟩
          ⟨2, "bob", "xyhash", 1⟩ msgs) ∧
      openConversation demoStore 2 1 =
        some (demoStore, Response.renderChat ⟨2, "bob", "xyhash", 1⟩
          ⟨1, "alice", "pwhash", 0⟩ msgs) ∧
      ∀ m : Message, m ∈ msgs ↔ m ∈ demoStore.messages ∧
        ((m.sender = 1 ∧ m.recipient = 2) ∨ (m.sender = 2 ∧ m.recipient = 1)) := by
  refine ⟨by decide, by decide, ?_⟩
  exact C4_conversation_symmetry demoStore 1 2 ⟨1, "alice", "pwhash", 0⟩
    ⟨2, "bob", "xyhash", 1⟩ (by decide) (by decide)

/-- The feed's post sort returns a permutation of the stored posts. -/
theorem sortPostsDesc_perm (l : List Post) : List.Perm (sortPostsDesc l) l :=
  List.perm_insertionSort _ l

/-- The feed's post sort is non-increasing in creation time. -/
theorem sortPostsDesc_chain (l : List Post) :
    List.Chain' (fun a b => b.createdAt ≤ a.createdAt) (sortPostsDesc l) := by
  letI : IsTotal Post (fun a b => b.createdAt ≤ a.createdAt) :=
    ⟨fun a b => Nat.le_total b.createdAt a.createdAt⟩
  letI : IsTrans Post (fun a b => b.createdAt ≤ a.createdAt) :=
    ⟨fun _ _ _ hab hbc => Nat.le_trans hbc hab⟩
  exact List.Pairwise.chain' (List.sorted_insertionSort _ l)

/-- The comment sort returns a permutation of the stored comments. -/
theorem sortCommentsAsc_perm (l : List Comment) : List.Perm (sortCommentsAsc l) l :=
  List.perm_insertionSort _ l

/-- The comment sort is non-decreasing in creation time. -/
theorem sortCommentsAsc_chain (l : List Comment) :
    List.Chain' (fun a b => a.createdAt ≤ b.createdAt) (sortCommentsAsc l) := by
  letI : IsTotal Comment (fun a b => a.createdAt ≤ b.createdAt) :=
    ⟨fun a b => Nat.le_total a.createdAt b.createdAt⟩
  letI : IsTrans Comment (fun a b => a.createdAt ≤ b.createdAt) :=
    ⟨fun _ _ _ hab hbc => Nat.le_trans hab hbc⟩
  exact List.Pairwise.chain' (List.sorted_insertionSort _ l)

/-- The message sort is non-decreasing in creation time. -/
theorem sortMessagesAsc_chain (l : List Message) :
    List.Chain' (fun a b => a.createdAt ≤ b.createdAt) (sortMessagesAsc l) := by
  letI : IsTotal Message (fun a b => a.createdAt ≤ b.createdAt) :=
    ⟨fun a b => Nat.le_total a.createdAt b.createdAt⟩
  letI : IsTrans Message (fun a b => a.createdAt ≤ b.createdAt) :=
    ⟨fun _ _ _ hab hbc => Nat.le_trans hab hbc⟩
  exact List.Pairwise.chain' (List.sorted_insertionSort _ l)

/-- Claim C3 (amended): for every store state, the feed listing returns all
posts ordered newest-first by creation timestamp and all comments ordered
oldest-first, and the conversation listing is ordered oldest-first — each
ordering non-strict: documents sharing a creation timestamp appear adjacent
in an unspecified order. -/
theorem C3_listing_order (s : Store) (uid peerId : Nat) (me other : User)
    (hme : findUserById s uid = some me)
    (hpeer : findUserById s peerId = some other) :
    (∃ others, listFeed s uid =
        some (s, Response.renderHome me others (sortPostsDesc s.posts)
          (sortCommentsAsc s.comments))) ∧
    List.Perm (sortPostsDesc s.posts) s.posts ∧
    List.Chain' (fun a b => b.createdAt ≤ a.createdAt) (sortPostsDesc s.posts) ∧
    List.Perm (sortCommentsAsc s.comments) s.comments ∧
    List.Chain' (fun a b => a.createdAt ≤ b.createdAt) (sortCommentsAsc s.comments) ∧
    ∃ msgs, openConversation s uid peerId = some (s, Response.renderChat me other msgs) ∧
      List.Chain' (fun a b : Message => a.createdAt ≤ b.createdAt) msgs := by
  refine ⟨⟨s.users.filter (fun u => u.id != me.id), by simp [listFeed, hme]⟩,
    sortPostsDesc_perm s.posts, sortPostsDesc_chain s.posts,
    sortCommentsAsc_perm s.comments, sortCommentsAsc_chain s.comments,
    sortMessagesAsc (s.messages.filter (fun m =>
      (m.sender == me.id && m.recipient == other.id) ||
      (m.sender == other.id && m.recipient == me.id))),
    by simp [openConversation, hme, hpeer], sortMessagesAsc_chain _⟩

/-- Counterexample to claim C3 as stated: with two posts sharing one
creation timestamp the feed listing cannot be strictly ordered — the
returned post list is not strictly decreasing in creation time. -/
theorem C3_counterexample :
    listFeed tieStore 1 = some (tieStore,
      Response.renderHome ⟨1, "alice", "pwhash", 0⟩ []
        [⟨1, 1, "a", 5⟩, ⟨2, 1, "b", 5⟩] []) ∧
    ¬ List.Chain' (fun a b : Post => b.createdAt < a.createdAt)
      [⟨1, 1, "a", 5⟩, ⟨2, 1, "b", 5⟩] := by
  constructor
  · decide
  · intro hch
    rw [List.chain'_cons] at hch
    exact absurd hch.1 (by decide)

/-- Witness for C3 at a concrete store. -/
theorem C3_witness :
    findUserById demoStore 1 = some ⟨1, "alice", "pwhash", 0⟩ ∧
    findUserById demoStore 2 = some ⟨2, "bob", "xyhash", 1⟩ ∧
    ((∃ others, listFeed demoStore 1 =
        some (demoStore, Response.renderHome ⟨1, "alice", "pwhash", 0⟩ others
          (sortPostsDesc demoStore.posts) (sortCommentsAsc demoStore.comments))) ∧
    List.Perm (sortPostsDesc demoStore.posts) demoStore.posts ∧
    List.Chain' (fun a b => b.createdAt ≤ a.createdAt) (sortPostsDesc demoStore.posts) ∧
    List.Perm (sortCommentsAsc demoStore.comments) demoStore.comments ∧
    List.Chain' (fun a b => a.createdAt ≤ b.createdAt) (sortCommentsAsc demoStore.comments) ∧
    ∃ msgs, openConversation demoStore 1 2 =
        some (demoStore, Response.renderChat ⟨1, "alice", "pwhash", 0⟩
          ⟨2, "bob", "xyhash", 1⟩ msgs) ∧
      List.Chain' (fun a b : Message => a.createdAt ≤ b.createdAt) msgs) := by
  refine ⟨by decide, by decide, ?_⟩
  exact C3_listing_order demoStore 1 2 ⟨1, "alice", "pwhash", 0⟩
    ⟨2, "bob", "xyhash", 1⟩ (by decide) (by decide)

/-- Claim C6 (amended): a registration attempt that passes the presence
validation (username and password both present and non-empty) and whose
username is already an existing user's username fails with the conflict
message, persists no new user, and leaves the session unmodified. -/
theorem C6_register_conflict (hash : String → String) (s : Store)
    (sess : Option Nat) (username password : Option String) (now newId : Nat)
    (hvalid : (falsy username || falsy password) = false)
    (hex : ∃ u, u ∈ s.users ∧ some u.username = username) :
    register hash s sess username password now newId =
      (s, sess, Response.renderRegister (some "Ce pseudo est déjà pris")) := by
  obtain ⟨u, hu, hun⟩ := hex
  have hgd : username.getD "" = u.username := by
    cases username with
    | none => cases hun
    | some n => exact (Option.some.inj hun).symm
  unfold register
  rw [if_neg (by simp [hvalid])]
  cases hfo : findOneUser s (username.getD "") with
  | some v => rfl
  | none =>
    exfalso
    have hnf := List.find?_eq_none.mp hfo u hu
    exact hnf (by simp [hgd])

/-- Counterexample to claim C6 as stated: an attempt whose username "alice"
is already registered but whose password is empty is rejected by the
presence validation, not with the conflict message. -/
theorem C6_counterexample :
    findOneUser demoStore "alice" = some ⟨1, "alice", "pwhash", 0⟩ ∧
    register (fun p => p ++ "hash") demoStore none (some "alice") (some "") 9 9 =
      (demoStore, none,
        Response.renderRegister (some "Pseudo et mot de passe obligatoires")) ∧
    Response.renderRegister (some "Pseudo et mot de passe obligatoires") ≠
      Response.renderRegister (some "Ce pseudo est déjà pris") := by
  refine ⟨by decide, by decide, by decide⟩

/-- Witness for C6 at a concrete conflicting attempt. -/
theorem C6_witness :
    ((falsy (some "alice") || falsy (some "x")) = false) ∧
    (∃ u, u ∈ demoStore.users ∧ some u.username = some "alice") ∧
    register (fun p => p ++ "hash") demoStore none (some "alice") (some "x") 9 9 =
      (demoStore, none, Response.renderRegister (some "Ce pseudo est déjà pris")) := by
  refine ⟨by decide, ⟨⟨1, "alice", "pwhash", 0⟩, by decide, rfl⟩, ?_⟩
  exact C6_register_conflict _ demoStore none (some "alice") (some "x") 9 9
    (by decide) ⟨⟨1, "alice", "pwhash", 0⟩, by decide, rfl⟩
